import Mathlib

/-!
Verification of the booking-system backend (src/backend.py, src/models/booking.py,
src/models/tables.py) against its natural-language specification.

Shallow embedding conventions:
* A calendar date is a day index (`Nat`); a wall-clock time is minutes since
  midnight (`Nat`); `datetime.combine d t` becomes `d * 1440 + t`.
* Python's dynamically typed date/time slots (which may hold `datetime`, `date`,
  `time` or `None`) are embedded as the sum type `PyDT`.
* A raised-and-caught Python exception is embedded as an `Option`/sentinel
  result, mirroring the `try/except` blocks of the source, which catch every
  exception and return a fallback value.
* The PostgreSQL store is a record of rows; the driver's failure mode
  (connectivity loss) is a `failing` flag, and every driver invocation bumps an
  `accesses` counter so that "no store access happened" is observable.
-/

/-- Embedding of a Python value stored in a date/time field: either `None`, a
`datetime` (day index plus minutes since midnight), a plain `date`, or a plain
`time`. -/
inductive PyDT where
  | none
  | dt (day : Nat) (minutes : Nat)
  | date (day : Nat)
  | time (minutes : Nat)
deriving DecidableEq, Repr

/-- Python truthiness of a date/time slot: only `None` is falsy (`date`, `time`
and `datetime` objects are always truthy in Python 3.5+). -/
def pyTruthy : PyDT → Bool
  | PyDT.none => false
  | _ => true

/-- Embedding of `x.time() if isinstance(x, datetime) else x`. -/
def timeCoerce : PyDT → PyDT
  | PyDT.dt _ t => PyDT.time t
  | v => v

/-- Embedding of `x.date() if isinstance(x, datetime) else x`. -/
def dateCoerce : PyDT → PyDT
  | PyDT.dt d _ => PyDT.date d
  | v => v

/-- The day index of a value acceptable as the first argument of
`datetime.combine` (a `date` or a `datetime`); `none` models a `TypeError`. -/
def dateVal : PyDT → Option Nat
  | PyDT.date d => some d
  | PyDT.dt d _ => some d
  | _ => Option.none

/-- The minutes of a value acceptable as the second argument of
`datetime.combine` (a plain `time` only); `none` models a `TypeError`. -/
def timeVal : PyDT → Option Nat
  | PyDT.time t => some t
  | _ => Option.none

/-- Embedding of `datetime.combine(a, b)` as absolute minutes
(`day * 1440 + minutes`); `none` models the `TypeError` raised when the
arguments are not a date/datetime and a time. -/
def pyCombine (a b : PyDT) : Option Nat :=
  match dateVal a, timeVal b with
  | some d, some t => some (d * 1440 + t)
  | _, _ => Option.none

/-- SQL equality between a stored `booking_date` column value and a query
parameter, as evaluated by the `WHERE booking_date = %s` clause that
`PostgreSQLDriver.read` builds: equal dates match, a `NULL` on either side
never matches, and a timestamp equals a date only at midnight. -/
def dbDateEq (stored param : PyDT) : Bool :=
  match stored, param with
  | PyDT.date a, PyDT.date b => a == b
  | PyDT.date a, PyDT.dt b t => a == b && t == 0
  | PyDT.dt a t, PyDT.date b => a == b && t == 0
  | PyDT.dt a t, PyDT.dt b u => a == b && t == u
  | _, _ => false

/-- Embedding of the `RestaurantTable` dataclass (src/models/tables.py). -/
structure RestaurantTable where
  id : Option Nat
  table_number : String
  capacity : Int
  table_type : String
  status : String
  location : Option String
  description : Option String
  is_active : Bool
  created_at : Option Nat
  updated_at : Option Nat
deriving DecidableEq, Repr

/-- Embedding of the `Booking` dataclass (src/models/booking.py). Timestamps
are opaque values (`Option Nat`); statuses are the raw strings the source
compares against. -/
structure Booking where
  id : Option Nat
  user_id : Nat
  table_id : Nat
  booking_date : PyDT
  booking_time : PyDT
  booking_end_time : PyDT
  number_of_guests : Int
  status : String
  notes : Option String
  created_at : Option Nat
  updated_at : Option Nat
deriving DecidableEq, Repr

/-- Embedding of the dictionary produced by `Booking.to_dict`: the `id` key is
never written by `to_dict`, and the `booking_end_time` key may be absent
(`Option.none`) when the source skips it. -/
structure BookingDict where
  id : Option Nat
  user_id : Nat
  table_id : Nat
  booking_date : PyDT
  booking_time : PyDT
  booking_end_time : Option PyDT
  number_of_guests : Int
  status : String
  notes : Option String
  created_at : Option Nat
  updated_at : Option Nat
deriving DecidableEq, Repr

/-- Embedding of `Booking.to_dict` (src/models/booking.py lines 77-104).
Returns `none` when the legacy fallback raises a `TypeError` inside
`datetime.combine` (mis-shaped date/time slots). -/
def Booking.to_dict (b : Booking) : Option BookingDict :=
  let base : BookingDict :=
    { id := Option.none
      user_id := b.user_id
      table_id := b.table_id
      booking_date := dateCoerce b.booking_date
      booking_time := timeCoerce b.booking_time
      booking_end_time := Option.none
      number_of_guests := b.number_of_guests
      status := b.status
      notes := b.notes
      created_at := b.created_at
      updated_at := b.updated_at }
  if pyTruthy b.booking_end_time then
    some { base with booking_end_time := some (timeCoerce b.booking_end_time) }
  else if pyTruthy b.booking_time then
    let booking_time_obj := timeCoerce b.booking_time
    let booking_date_obj := dateCoerce b.booking_date
    if pyTruthy booking_date_obj && pyTruthy booking_time_obj then
      match pyCombine booking_date_obj booking_time_obj with
      | some booking_dt =>
          some { base with booking_end_time := some (PyDT.time ((booking_dt + 120) % 1440)) }
      | Option.none => Option.none
    else some base
  else some base

/-- Embedding of `Booking.from_dict` (src/models/booking.py lines 106-136):
every field is read back with `dict.get`; an absent `booking_end_time` key
reads as `None`. -/
def Booking.from_dict (data : BookingDict) : Booking :=
  { id := data.id
    user_id := data.user_id
    table_id := data.table_id
    booking_date := data.booking_date
    booking_time := data.booking_time
    booking_end_time := match data.booking_end_time with
      | some v => v
      | Option.none => PyDT.none
    number_of_guests := data.number_of_guests
    status := data.status
    notes := data.notes
    created_at := data.created_at
    updated_at := data.updated_at }

/-- Abstract state of the PostgreSQL store, as seen through `PostgreSQLDriver`.
`users` holds the ids present in the `users` table (only the foreign-key check
needs them); `failing` set means every driver invocation raises (connectivity
loss); `accesses` counts driver invocations, so that "no store access
happened" is an observable fact of a run. -/
structure Store where
  users : List Nat
  tables : List RestaurantTable
  bookings : List Booking
  next_id : Nat
  failing : Bool
  accesses : Nat
deriving DecidableEq, Repr

/-- One driver invocation: the access counter advances. -/
def Store.bump (s : Store) : Store :=
  { s with accesses := s.accesses + 1 }

/-- Embedding of the `where` clause `{table_id: ..., booking_date: ...}` that
`check_table_availability` passes to `read_bookings` (src/backend.py 535-541). -/
def bookingWhereMatch (table_id : Nat) (booking_date : PyDT) (b : Booking) : Bool :=
  b.table_id == table_id && dbDateEq b.booking_date booking_date

/-- Embedding of the in-memory filter of src/backend.py lines 544-548: keep
reservations whose status is pending or confirmed and whose id differs from
`exclude_booking_id` (no exclusion when it is `None`). -/
def consideredFilter (exclude_booking_id : Option Nat) (b : Booking) : Bool :=
  (b.status == "pending" || b.status == "confirmed")
    && (match exclude_booking_id with
        | Option.none => true
        | some e => !(b.id == some e))

/-- The list of reservations the availability check actually tests against:
the rows `read_bookings` returns for `(table_id, booking_date)` (an empty list
when the driver fails, because `read_bookings` catches the error and returns
`[]`), restricted by `consideredFilter`. -/
def consideredRows (table_id : Nat) (booking_date : PyDT) (exclude_booking_id : Option Nat)
    (s : Store) : List Booking :=
  (if s.failing then [] else s.bookings.filter (bookingWhereMatch table_id booking_date)).filter
    (consideredFilter exclude_booking_id)

/-- Start slot of an existing reservation as the loop of
`check_table_availability` computes it (src/backend.py 560-562): coerce a
`datetime` to its time, leave anything else alone. -/
def rowStart (b : Booking) : PyDT := timeCoerce b.booking_time

/-- Effective end slot of an existing reservation (src/backend.py 564-573):
the stored end time when present, otherwise
`(datetime.combine(booking_date, start) + timedelta(hours=2)).time()`, which
is `(start + 120) % 1440` minutes. `none` models the `TypeError` raised when
the legacy fallback is applied to a row whose start slot is not a time. -/
def rowEffectiveEnd (b : Booking) : Option PyDT :=
  if pyTruthy b.booking_end_time then
    some (timeCoerce b.booking_end_time)
  else
    match timeVal (rowStart b) with
    | some ts => some (PyDT.time ((ts + 120) % 1440))
    | Option.none => Option.none

/-- The interval test of src/backend.py line 584:
`not (new_end <= existing_start or new_start >= existing_end)`. -/
def intervalsConflict (new_start new_end existing_start existing_end : Nat) : Bool :=
  !(decide (new_end ≤ existing_start) || decide (new_start ≥ existing_end))

/-- The result dictionary of `check_table_availability`. -/
structure AvailabilityResult where
  available : Bool
  table_exists : Bool
  table_active : Bool
  conflicting_booking : Option Booking
deriving DecidableEq, Repr

/-- The result dictionary as initialised at src/backend.py lines 513-518. -/
def initResult : AvailabilityResult :=
  { available := false, table_exists := false, table_active := false,
    conflicting_booking := Option.none }

/-- The result dictionary at entry to the overlap loop: `table_exists` and
`table_active` have been set to `True` (src/backend.py lines 526, 532). -/
def resBase : AvailabilityResult :=
  { available := false, table_exists := true, table_active := true,
    conflicting_booking := Option.none }

/-- Embedding of the overlap loop of `check_table_availability`
(src/backend.py lines 558-591). `res` is the mutable result dictionary at loop
entry. A `TypeError` raised by `datetime.combine` on a mis-shaped row is caught
by the function's `except` handler, which returns the result dictionary in its
current (already mutated) state. -/
def scanConflicts (new_start new_end : Nat) (booking_date : PyDT)
    (res : AvailabilityResult) : List Booking → AvailabilityResult
  | [] => { res with available := true }
  | b :: rest =>
    match rowEffectiveEnd b with
    | Option.none => res
    | some ete =>
      match pyCombine booking_date (rowStart b), pyCombine booking_date ete with
      | some existing_start, some existing_end =>
        if intervalsConflict new_start new_end existing_start existing_end then
          { res with conflicting_booking := some b }
        else
          scanConflicts new_start new_end booking_date res rest
      | _, _ => res

/-- Result component of `check_table_availability` (src/backend.py 482-595).
The table lookup is `read_table`, which catches driver errors and returns
`None`; the reservations fetch is `read_bookings`, which catches driver errors
and returns `[]` (both absorbed into `consideredRows`). `datetime.combine` on
the candidate date/time raises for mis-shaped arguments, and the `except`
handler returns the result in its current state (`resBase` at that point). -/
def check_result (table_id : Nat) (booking_date booking_time booking_end_time : PyDT)
    (exclude_booking_id : Option Nat) (s : Store) : AvailabilityResult :=
  match (if s.failing then Option.none
         else s.tables.find? fun t => t.id == some table_id) with
  | Option.none => initResult
  | some table =>
    if table.is_active then
      match pyCombine booking_date booking_time, pyCombine booking_date booking_end_time with
      | some new_start, some new_end =>
        scanConflicts new_start new_end booking_date resBase
          (consideredRows table_id booking_date exclude_booking_id s)
      | _, _ => resBase
    else { initResult with table_exists := true }

/-- Store effect of `check_table_availability`: one driver invocation for the
table lookup, and a second one for the reservations fetch when the table was
found and active. -/
def check_accesses (table_id : Nat) (s : Store) : Store :=
  match (if s.failing then Option.none
         else s.tables.find? fun t => t.id == some table_id) with
  | Option.none => s.bump
  | some table => if table.is_active then s.bump.bump else s.bump

/-- Embedding of `check_table_availability` (src/backend.py 482-595): the
result dictionary together with the store after the run. -/
def check_table_availability (table_id : Nat)
    (booking_date booking_time booking_end_time : PyDT)
    (exclude_booking_id : Option Nat) (s : Store) : AvailabilityResult × Store :=
  (check_result table_id booking_date booking_time booking_end_time exclude_booking_id s,
   check_accesses table_id s)

/-- Constraints the `bookings` table enforces on a (full) row, as declared by
`Booking.get_create_table_sql` (src/models/booking.py lines 51-67):
`booking_date DATE NOT NULL`, `booking_time TIME NOT NULL`,
`booking_end_time TIME NOT NULL`, `CHECK (number_of_guests > 0)`,
`CHECK (booking_end_time > booking_time)`, and the foreign keys on `users`
and `restaurant_tables`. -/
def bookingRowOk (s : Store) (b : Booking) : Bool :=
  (match b.booking_date with | PyDT.date _ => true | _ => false)
    && (match b.booking_time with | PyDT.time _ => true | _ => false)
    && (match b.booking_time, b.booking_end_time with
        | PyDT.time t1, PyDT.time t2 => decide (t1 < t2)
        | _, _ => false)
    && decide (0 < b.number_of_guests)
    && s.users.contains b.user_id
    && s.tables.any (fun t => t.id == some b.table_id)

/-- The row a successful `INSERT INTO bookings` materialises from a `to_dict`
dictionary, with the generated id; an absent `booking_end_time` key inserts
`NULL` (embedded as `PyDT.none`, which `bookingRowOk` rejects). -/
def bookingOfDict (d : BookingDict) (generated_id : Nat) : Booking :=
  { id := some generated_id
    user_id := d.user_id
    table_id := d.table_id
    booking_date := d.booking_date
    booking_time := d.booking_time
    booking_end_time := match d.booking_end_time with
      | some v => v
      | Option.none => PyDT.none
    number_of_guests := d.number_of_guests
    status := d.status
    notes := d.notes
    created_at := d.created_at
    updated_at := d.updated_at }

/-- The row an `UPDATE bookings SET ... WHERE id = %s` produces from an
existing row and a `to_dict` dictionary: every present key overwrites the
column, an absent `booking_end_time` key leaves that column unchanged, and
the row id is untouched. -/
def applyDict (old : Booking) (d : BookingDict) : Booking :=
  { id := old.id
    user_id := d.user_id
    table_id := d.table_id
    booking_date := d.booking_date
    booking_time := d.booking_time
    booking_end_time := match d.booking_end_time with
      | some v => v
      | Option.none => old.booking_end_time
    number_of_guests := d.number_of_guests
    status := d.status
    notes := d.notes
    created_at := d.created_at
    updated_at := d.updated_at }

/-- Embedding of `driver.create('bookings', data, returning='id')`: `none`
models a raised exception (driver failure or a violated constraint of the
schema); on success the generated id is returned and the row appended. -/
def driver_create_booking (d : BookingDict) (s : Store) : Option Nat × Store :=
  let s1 := s.bump
  if s.failing then (Option.none, s1)
  else if bookingRowOk s (bookingOfDict d s.next_id) then
    (some s.next_id,
      { s1 with bookings := s1.bookings ++ [bookingOfDict d s.next_id],
                next_id := s.next_id + 1 })
  else (Option.none, s1)

/-- Embedding of `driver.update_by_id('bookings', booking_id, data)`: `none`
models a raised exception (driver failure or a violated constraint on the
updated row); otherwise the number of affected rows is returned. -/
def driver_update_booking (booking_id : Nat) (d : BookingDict) (s : Store) :
    Option Nat × Store :=
  let s1 := s.bump
  if s.failing then (Option.none, s1)
  else
    match s.bookings.find? (fun b => b.id == some booking_id) with
    | Option.none => (some 0, s1)
    | some old =>
      let updated := applyDict old d
      if bookingRowOk s updated then
        (some 1,
          { s1 with bookings :=
              s1.bookings.map (fun b => if b.id == some booking_id then updated else b) })
      else (Option.none, s1)

/-- Embedding of `create_booking` (src/backend.py 318-379): reject when
`booking_end_time` is falsy; coerce the date/time slots; gate on
`check_table_availability` with no exclusion; insert on success. The
function's `except` handler turns any raised error into `None`. -/
def create_booking (booking : Booking) (s : Store) : Option Nat × Store :=
  if !(pyTruthy booking.booking_end_time) then (Option.none, s)
  else
    let bd := dateCoerce booking.booking_date
    let bts := timeCoerce booking.booking_time
    let bte := timeCoerce booking.booking_end_time
    let res := check_table_availability booking.table_id bd bts bte Option.none s
    if !res.1.available then (Option.none, res.2)
    else
      match booking.to_dict with
      | Option.none => (Option.none, res.2)
      | some d => driver_create_booking d res.2

/-- Embedding of `update_booking` (src/backend.py 434-460): serialise the
draft with `to_dict`, set `updated_at`, and call `driver.update_by_id`;
return whether any row was affected. The `except` handler turns any raised
error into `False`. No availability check is performed. -/
def update_booking (booking_id : Nat) (booking : Booking) (now : Nat) (s : Store) :
    Bool × Store :=
  match booking.to_dict with
  | Option.none => (false, s)
  | some d0 =>
    let d := { d0 with updated_at := some now }
    match driver_update_booking booking_id d s with
    | (Option.none, s1) => (false, s1)
    | (some n, s1) => (decide (0 < n), s1)

/-! Concrete fixtures used by the closed theorems below. -/

/-- An active restaurant table with id 1. -/
def tblActive : RestaurantTable :=
  { id := some 1, table_number := "T1", capacity := 4, table_type := "standard",
    status := "available", location := Option.none, description := Option.none,
    is_active := true, created_at := Option.none, updated_at := Option.none }

/-- A confirmed reservation with id 1 occupying 19:00-21:00 on day 0, table 1. -/
def bkNineToEleven : Booking :=
  { id := some 1, user_id := 1, table_id := 1, booking_date := PyDT.date 0,
    booking_time := PyDT.time 1140, booking_end_time := PyDT.time 1260,
    number_of_guests := 2, status := "confirmed", notes := Option.none,
    created_at := Option.none, updated_at := Option.none }

/-- A confirmed reservation with id 2 occupying 17:30-18:30 on day 0, table 1. -/
def bkEarly : Booking :=
  { id := some 2, user_id := 1, table_id := 1, booking_date := PyDT.date 0,
    booking_time := PyDT.time 1050, booking_end_time := PyDT.time 1110,
    number_of_guests := 2, status := "confirmed", notes := Option.none,
    created_at := Option.none, updated_at := Option.none }

/-- Store for the update-gating scenario: table 1 active, reservations 1 and 2. -/
def storeTwoBookings : Store :=
  { users := [1], tables := [tblActive], bookings := [bkNineToEleven, bkEarly],
    next_id := 5, failing := false, accesses := 0 }

/-- The update draft that moves reservation 2 onto 19:30-20:30, overlapping
reservation 1. -/
def updOverlapDraft : Booking :=
  { bkEarly with booking_time := PyDT.time 1170, booking_end_time := PyDT.time 1230 }

/-- Store with table 1 active and no reservations. -/
def storeNoBookings : Store :=
  { users := [1], tables := [tblActive], bookings := [], next_id := 5,
    failing := false, accesses := 0 }

/-- A creation draft whose end time equals its start time (20:00-20:00). -/
def zeroLenDraft : Booking :=
  { id := Option.none, user_id := 1, table_id := 1, booking_date := PyDT.date 0,
    booking_time := PyDT.time 1200, booking_end_time := PyDT.time 1200,
    number_of_guests := 2, status := "pending", notes := Option.none,
    created_at := Option.none, updated_at := Option.none }

/-- A failing store (every driver invocation raises) that nevertheless holds
the active table 1. -/
def storeFailing : Store :=
  { users := [1], tables := [tblActive], bookings := [], next_id := 5,
    failing := true, accesses := 0 }

/-- A healthy store in which table 1 simply does not exist. -/
def storeNoTable : Store :=
  { users := [1], tables := [], bookings := [], next_id := 5,
    failing := false, accesses := 0 }

/-- A well-formed creation draft for 19:00-21:00 on table 1. -/
def okDraft : Booking :=
  { bkNineToEleven with id := Option.none, status := "pending" }

/-- A legacy row with no stored end time whose start is 23:00: the 2-hour
fallback wraps past midnight. -/
def legacyLateRow : Booking :=
  { bkNineToEleven with
    booking_time := PyDT.time 1380
    booking_end_time := PyDT.none }

/-! Helper notions and lemmas about the overlap loop. -/

/-- Whether an existing reservation overlaps the candidate interval, as the
loop of `check_table_availability` decides it: `none` when the row is so
mis-shaped that the loop raises on it, otherwise the value of the interval
test on the row's effective interval. -/
def rowOverlapsCandidate (new_start new_end : Nat) (booking_date : PyDT)
    (b : Booking) : Option Bool :=
  match rowEffectiveEnd b with
  | Option.none => Option.none
  | some ete =>
    match pyCombine booking_date (rowStart b), pyCombine booking_date ete with
    | some es, some ee => some (intervalsConflict new_start new_end es ee)
    | _, _ => Option.none

theorem scan_result_cases (new_start new_end : Nat) (booking_date : PyDT)
    (l : List Booking) :
    scanConflicts new_start new_end booking_date resBase l = resBase
    ∨ scanConflicts new_start new_end booking_date resBase l
        = { resBase with available := true }
    ∨ ∃ c, scanConflicts new_start new_end booking_date resBase l
        = { resBase with conflicting_booking := some c } := by
  induction l with
  | nil => exact Or.inr (Or.inl rfl)
  | cons b rest ih =>
    cases h1 : rowEffectiveEnd b with
    | none => exact Or.inl (by simp [scanConflicts, h1])
    | some ete =>
      cases h2 : pyCombine booking_date (rowStart b) with
      | none => exact Or.inl (by simp [scanConflicts, h1, h2])
      | some es =>
        cases h3 : pyCombine booking_date ete with
        | none => exact Or.inl (by simp [scanConflicts, h1, h2, h3])
        | some ee =>
          by_cases h4 : intervalsConflict new_start new_end es ee = true
          · exact Or.inr (Or.inr ⟨b, by simp [scanConflicts, h1, h2, h3, h4]⟩)
          · rw [Bool.not_eq_true] at h4
            have hstep : scanConflicts new_start new_end booking_date resBase (b :: rest)
                = scanConflicts new_start new_end booking_date resBase rest := by
              simp [scanConflicts, h1, h2, h3, h4]
            rw [hstep]
            exact ih

theorem scan_avail_iff (new_start new_end : Nat) (booking_date : PyDT)
    (l : List Booking) :
    (scanConflicts new_start new_end booking_date resBase l).available = true
      ↔ ∀ b ∈ l, rowOverlapsCandidate new_start new_end booking_date b = some false := by
  induction l with
  | nil => simp [scanConflicts, resBase]
  | cons b rest ih =>
    cases h1 : rowEffectiveEnd b with
    | none =>
      have hl : scanConflicts new_start new_end booking_date resBase (b :: rest) = resBase := by
        simp [scanConflicts, h1]
      rw [hl]
      simp only [resBase, List.mem_cons]
      constructor
      · intro h; exact absurd h (by simp)
      · intro h
        have hb := h b (Or.inl rfl)
        simp [rowOverlapsCandidate, h1] at hb
    | some ete =>
      cases h2 : pyCombine booking_date (rowStart b) with
      | none =>
        have hl : scanConflicts new_start new_end booking_date resBase (b :: rest) = resBase := by
          simp [scanConflicts, h1, h2]
        rw [hl]
        simp only [resBase, List.mem_cons]
        constructor
        · intro h; exact absurd h (by simp)
        · intro h
          have hb := h b (Or.inl rfl)
          simp [rowOverlapsCandidate, h1, h2] at hb
      | some es =>
        cases h3 : pyCombine booking_date ete with
        | none =>
          have hl : scanConflicts new_start new_end booking_date resBase (b :: rest) = resBase := by
            simp [scanConflicts, h1, h2, h3]
          rw [hl]
          simp only [resBase, List.mem_cons]
          constructor
          · intro h; exact absurd h (by simp)
          · intro h
            have hb := h b (Or.inl rfl)
            simp [rowOverlapsCandidate, h1, h2, h3] at hb
        | some ee =>
          by_cases h4 : intervalsConflict new_start new_end es ee = true
          · have hl : scanConflicts new_start new_end booking_date resBase (b :: rest)
                = { resBase with conflicting_booking := some b } := by
              simp [scanConflicts, h1, h2, h3, h4]
            rw [hl]
            simp only [resBase, List.mem_cons]
            constructor
            · intro h; exact absurd h (by simp)
            · intro h
              have hb := h b (Or.inl rfl)
              simp [rowOverlapsCandidate, h1, h2, h3, h4] at hb
          · rw [Bool.not_eq_true] at h4
            have hl : scanConflicts new_start new_end booking_date resBase (b :: rest)
                = scanConflicts new_start new_end booking_date resBase rest := by
              simp [scanConflicts, h1, h2, h3, h4]
            rw [hl, ih]
            constructor
            · intro h c hc
              rcases List.mem_cons.mp hc with hc | hc
              · subst hc
                simp [rowOverlapsCandidate, h1, h2, h3, h4]
              · exact h c hc
            · intro h c hc
              exact h c (List.mem_cons_of_mem b hc)

theorem scan_conflict_mem (new_start new_end : Nat) (booking_date : PyDT)
    (l : List Booking) (c : Booking) :
    (scanConflicts new_start new_end booking_date resBase l).conflicting_booking = some c →
    c ∈ l ∧ rowOverlapsCandidate new_start new_end booking_date c = some true := by
  induction l with
  | nil => intro h; simp [scanConflicts, resBase] at h
  | cons b rest ih =>
    cases h1 : rowEffectiveEnd b with
    | none =>
      intro h
      rw [show scanConflicts new_start new_end booking_date resBase (b :: rest) = resBase by
        simp [scanConflicts, h1]] at h
      simp [resBase] at h
    | some ete =>
      cases h2 : pyCombine booking_date (rowStart b) with
      | none =>
        intro h
        rw [show scanConflicts new_start new_end booking_date resBase (b :: rest) = resBase by
          simp [scanConflicts, h1, h2]] at h
        simp [resBase] at h
      | some es =>
        cases h3 : pyCombine booking_date ete with
        | none =>
          intro h
          rw [show scanConflicts new_start new_end booking_date resBase (b :: rest) = resBase by
            simp [scanConflicts, h1, h2, h3]] at h
          simp [resBase] at h
        | some ee =>
          by_cases h4 : intervalsConflict new_start new_end es ee = true
          · intro h
            rw [show scanConflicts new_start new_end booking_date resBase (b :: rest)
                = { resBase with conflicting_booking := some b } by
              simp [scanConflicts, h1, h2, h3, h4]] at h
            simp only [resBase] at h
            have hb : b = c := by
              simpa using h
            subst hb
            exact ⟨List.mem_cons_self b rest,
              by simp [rowOverlapsCandidate, h1, h2, h3, h4]⟩
          · rw [Bool.not_eq_true] at h4
            intro h
            rw [show scanConflicts new_start new_end booking_date resBase (b :: rest)
                = scanConflicts new_start new_end booking_date resBase rest by
              simp [scanConflicts, h1, h2, h3, h4]] at h
            rcases ih h with ⟨hm, ht⟩
            exact ⟨List.mem_cons_of_mem b hm, ht⟩

/-! Helper lemmas about the availability checker as a whole. -/

theorem check_accesses_spec (table_id : Nat) (s : Store) :
    check_accesses table_id s = s.bump ∨ check_accesses table_id s = s.bump.bump := by
  unfold check_accesses
  cases hf : (if s.failing then Option.none
              else s.tables.find? fun t => t.id == some table_id) with
  | none => exact Or.inl rfl
  | some table =>
    by_cases ha : table.is_active = true
    · refine Or.inr ?_
      simp [ha]
    · rw [Bool.not_eq_true] at ha
      refine Or.inl ?_
      simp [ha]

theorem check_store_rows (table_id : Nat) (s : Store) :
    (check_accesses table_id s).bookings = s.bookings
    ∧ (check_accesses table_id s).tables = s.tables
    ∧ (check_accesses table_id s).users = s.users
    ∧ (check_accesses table_id s).next_id = s.next_id
    ∧ (check_accesses table_id s).failing = s.failing := by
  rcases check_accesses_spec table_id s with h | h <;> rw [h] <;>
    exact ⟨rfl, rfl, rfl, rfl, rfl⟩

theorem check_result_lookup_none (table_id : Nat)
    (booking_date booking_time booking_end_time : PyDT)
    (exclude_booking_id : Option Nat) (s : Store)
    (h : (if s.failing then Option.none
          else s.tables.find? fun t => t.id == some table_id) = Option.none) :
    check_result table_id booking_date booking_time booking_end_time
      exclude_booking_id s = initResult := by
  unfold check_result
  rw [h]

theorem check_result_inactive (table_id : Nat)
    (booking_date booking_time booking_end_time : PyDT)
    (exclude_booking_id : Option Nat) (s : Store) (table : RestaurantTable)
    (h : (if s.failing then Option.none
          else s.tables.find? fun t => t.id == some table_id) = some table)
    (ha : table.is_active = false) :
    check_result table_id booking_date booking_time booking_end_time
      exclude_booking_id s = { initResult with table_exists := true } := by
  unfold check_result
  rw [h]
  simp [ha]

theorem check_result_active (table_id : Nat)
    (booking_date booking_time booking_end_time : PyDT)
    (exclude_booking_id : Option Nat) (s : Store) (table : RestaurantTable)
    (new_start new_end : Nat)
    (h : (if s.failing then Option.none
          else s.tables.find? fun t => t.id == some table_id) = some table)
    (ha : table.is_active = true)
    (hs : pyCombine booking_date booking_time = some new_start)
    (he : pyCombine booking_date booking_end_time = some new_end) :
    check_result table_id booking_date booking_time booking_end_time
      exclude_booking_id s
      = scanConflicts new_start new_end booking_date resBase
          (consideredRows table_id booking_date exclude_booking_id s) := by
  unfold check_result
  rw [h]
  simp [ha, hs, he]

/-! Claim theorems. -/

/-- C8: the overlap predicate of src/backend.py line 584 is symmetric: for any
two intervals A and B, `overlaps(A,B) = overlaps(B,A)`. -/
theorem c8_overlap_symmetric (a1 a2 b1 b2 : Nat) :
    intervalsConflict a1 a2 b1 b2 = intervalsConflict b1 b2 a1 a2 := by
  simp only [intervalsConflict, ge_iff_le, Bool.or_comm]

/-- C9: the availability result dictionary is internally coherent for every
input and store state: if `available` is true then `table_exists` and
`table_active` are true and `conflicting_booking` is `None`; and if
`conflicting_booking` is set then `table_exists` and `table_active` are true
and `available` is false. -/
theorem c9_result_coherent (table_id : Nat)
    (booking_date booking_time booking_end_time : PyDT)
    (exclude_booking_id : Option Nat) (s : Store) :
    (((check_table_availability table_id booking_date booking_time booking_end_time
        exclude_booking_id s).1.available = true →
      (check_table_availability table_id booking_date booking_time booking_end_time
        exclude_booking_id s).1.table_exists = true
      ∧ (check_table_availability table_id booking_date booking_time booking_end_time
        exclude_booking_id s).1.table_active = true
      ∧ (check_table_availability table_id booking_date booking_time booking_end_time
        exclude_booking_id s).1.conflicting_booking = Option.none))
    ∧ (∀ c, (check_table_availability table_id booking_date booking_time booking_end_time
        exclude_booking_id s).1.conflicting_booking = some c →
      (check_table_availability table_id booking_date booking_time booking_end_time
        exclude_booking_id s).1.table_exists = true
      ∧ (check_table_availability table_id booking_date booking_time booking_end_time
        exclude_booking_id s).1.table_active = true
      ∧ (check_table_availability table_id booking_date booking_time booking_end_time
        exclude_booking_id s).1.available = false) := by
  simp only [check_table_availability]
  cases hf : (if s.failing then Option.none
              else s.tables.find? fun t => t.id == some table_id) with
  | none =>
    rw [check_result_lookup_none table_id booking_date booking_time booking_end_time
      exclude_booking_id s hf]
    exact ⟨fun h => absurd h (by simp [initResult]), fun c hc => by simp [initResult] at hc⟩
  | some table =>
    by_cases ha : table.is_active = true
    · cases hs : pyCombine booking_date booking_time with
      | none =>
        have hr : check_result table_id booking_date booking_time
            booking_end_time exclude_booking_id s = resBase := by
          unfold check_result
          rw [hf]
          simp [ha, hs]
        rw [hr]
        exact ⟨fun h => absurd h (by simp [resBase]), fun c hc => by simp [resBase] at hc⟩
      | some new_start =>
        cases he : pyCombine booking_date booking_end_time with
        | none =>
          have hr : check_result table_id booking_date booking_time
              booking_end_time exclude_booking_id s = resBase := by
            unfold check_result
            rw [hf]
            simp [ha, hs, he]
          rw [hr]
          exact ⟨fun h => absurd h (by simp [resBase]), fun c hc => by simp [resBase] at hc⟩
        | some new_end =>
          rw [check_result_active table_id booking_date booking_time booking_end_time
            exclude_booking_id s table new_start new_end hf ha hs he]
          rcases scan_result_cases new_start new_end booking_date
              (consideredRows table_id booking_date exclude_booking_id s) with h | h | ⟨c, h⟩ <;>
            rw [h]
          · exact ⟨fun hx => absurd hx (by simp [resBase]), fun c hc => by simp [resBase] at hc⟩
          · exact ⟨fun _ => ⟨rfl, rfl, rfl⟩, fun c hc => by simp [resBase] at hc⟩
          · exact ⟨fun hx => absurd hx (by simp [resBase]), fun c2 hc => ⟨rfl, rfl, rfl⟩⟩
    · rw [Bool.not_eq_true] at ha
      rw [check_result_inactive table_id booking_date booking_time booking_end_time
        exclude_booking_id s table hf ha]
      exact ⟨fun h => absurd h (by simp [initResult]), fun c hc => by simp [initResult] at hc⟩

theorem c9_result_coherent_witness :
    (check_table_availability 1 (PyDT.date 0) (PyDT.time 1260) (PyDT.time 1320)
      Option.none storeTwoBookings).1.table_exists = true
    ∧ (check_table_availability 1 (PyDT.date 0) (PyDT.time 1260) (PyDT.time 1320)
      Option.none storeTwoBookings).1.table_active = true
    ∧ (check_table_availability 1 (PyDT.date 0) (PyDT.time 1260) (PyDT.time 1320)
      Option.none storeTwoBookings).1.conflicting_booking = Option.none :=
  (c9_result_coherent 1 (PyDT.date 0) (PyDT.time 1260) (PyDT.time 1320)
      Option.none storeTwoBookings).1 (by decide)

/-- C6: if the referenced table does not exist, the availability result has
`table_exists = false` and `available = false`; if it exists but is inactive,
the result has `table_active = false` and `available = false`, regardless of
the requested date and time window. -/
theorem c6_missing_or_inactive (table_id : Nat)
    (booking_date booking_time booking_end_time : PyDT)
    (exclude_booking_id : Option Nat) (s : Store) :
    ((s.tables.find? (fun t => t.id == some table_id) = Option.none →
      (check_table_availability table_id booking_date booking_time booking_end_time
        exclude_booking_id s).1.table_exists = false
      ∧ (check_table_availability table_id booking_date booking_time booking_end_time
        exclude_booking_id s).1.available = false))
    ∧ (∀ table, s.tables.find? (fun t => t.id == some table_id) = some table →
      table.is_active = false →
      (check_table_availability table_id booking_date booking_time booking_end_time
        exclude_booking_id s).1.table_active = false
      ∧ (check_table_availability table_id booking_date booking_time booking_end_time
        exclude_booking_id s).1.available = false) := by
  simp only [check_table_availability]
  by_cases hfail : s.failing = true
  · have hnone : (if s.failing then Option.none
        else s.tables.find? fun t => t.id == some table_id) = Option.none := by
      simp [hfail]
    rw [check_result_lookup_none table_id booking_date booking_time booking_end_time
      exclude_booking_id s hnone]
    exact ⟨fun _ => ⟨rfl, rfl⟩, fun _ _ _ => ⟨rfl, rfl⟩⟩
  · rw [Bool.not_eq_true] at hfail
    constructor
    · intro hmiss
      have hnone : (if s.failing then Option.none
          else s.tables.find? fun t => t.id == some table_id) = Option.none := by
        simp [hfail, hmiss]
      rw [check_result_lookup_none table_id booking_date booking_time booking_end_time
        exclude_booking_id s hnone]
      exact ⟨rfl, rfl⟩
    · intro table hfind hinactive
      have hsome : (if s.failing then Option.none
          else s.tables.find? fun t => t.id == some table_id) = some table := by
        simp [hfail, hfind]
      rw [check_result_inactive table_id booking_date booking_time booking_end_time
        exclude_booking_id s table hsome hinactive]
      exact ⟨rfl, rfl⟩

theorem c6_missing_or_inactive_witness :
    (check_table_availability 1 (PyDT.date 0) (PyDT.time 1140) (PyDT.time 1260)
      Option.none storeNoTable).1.table_exists = false
    ∧ (check_table_availability 1 (PyDT.date 0) (PyDT.time 1140) (PyDT.time 1260)
      Option.none storeNoTable).1.available = false :=
  (c6_missing_or_inactive 1 (PyDT.date 0) (PyDT.time 1140) (PyDT.time 1260)
      Option.none storeNoTable).1 (by decide)

/-- C2: for the candidate interval and each considered existing reservation,
the checker reports a conflict exactly when
`NOT (candidate.end <= existing.start OR candidate.start >= existing.end)`
holds of the row's effective interval: the run is available iff no considered
row satisfies the test, and any reported conflicting row is a considered row
satisfying it; consequently back-to-back intervals (candidate ending when the
existing starts, or starting when the existing ends) never conflict. -/
theorem c2_overlap_rule :
    ((∀ (table_id : Nat) (booking_date booking_time booking_end_time : PyDT)
        (exclude_booking_id : Option Nat) (s : Store) (new_start new_end : Nat),
      pyCombine booking_date booking_time = some new_start →
      pyCombine booking_date booking_end_time = some new_end →
      ((check_table_availability table_id booking_date booking_time booking_end_time
          exclude_booking_id s).1.available = true
        ↔ (check_table_availability table_id booking_date booking_time booking_end_time
            exclude_booking_id s).1.table_active = true
          ∧ ∀ b ∈ consideredRows table_id booking_date exclude_booking_id s,
              rowOverlapsCandidate new_start new_end booking_date b = some false)))
    ∧ (∀ (table_id : Nat) (booking_date booking_time booking_end_time : PyDT)
        (exclude_booking_id : Option Nat) (s : Store) (new_start new_end : Nat)
        (c : Booking),
      pyCombine booking_date booking_time = some new_start →
      pyCombine booking_date booking_end_time = some new_end →
      (check_table_availability table_id booking_date booking_time booking_end_time
          exclude_booking_id s).1.conflicting_booking = some c →
      c ∈ consideredRows table_id booking_date exclude_booking_id s
        ∧ rowOverlapsCandidate new_start new_end booking_date c = some true)
    ∧ (∀ a b c : Nat,
        intervalsConflict a b b c = false ∧ intervalsConflict b c a b = false) := by
  refine ⟨?_, ?_, ?_⟩
  · intro table_id booking_date booking_time booking_end_time exclude_booking_id s
      new_start new_end hs he
    simp only [check_table_availability]
    cases hf : (if s.failing then Option.none
                else s.tables.find? fun t => t.id == some table_id) with
    | none =>
      rw [check_result_lookup_none table_id booking_date booking_time booking_end_time
        exclude_booking_id s hf]
      simp [initResult]
    | some table =>
      by_cases ha : table.is_active = true
      · rw [check_result_active table_id booking_date booking_time booking_end_time
          exclude_booking_id s table new_start new_end hf ha hs he]
        have ht : (scanConflicts new_start new_end booking_date resBase
            (consideredRows table_id booking_date exclude_booking_id s)).table_active
            = true := by
          rcases scan_result_cases new_start new_end booking_date
              (consideredRows table_id booking_date exclude_booking_id s) with h | h | ⟨c, h⟩ <;>
            rw [h] <;> rfl
        rw [scan_avail_iff]
        simp [ht]
      · rw [Bool.not_eq_true] at ha
        rw [check_result_inactive table_id booking_date booking_time booking_end_time
          exclude_booking_id s table hf ha]
        simp [initResult]
  · intro table_id booking_date booking_time booking_end_time exclude_booking_id s
      new_start new_end c hs he hc
    rw [show (check_table_availability table_id booking_date booking_time booking_end_time
        exclude_booking_id s).1 = check_result table_id booking_date booking_time
        booking_end_time exclude_booking_id s from rfl] at hc
    cases hf : (if s.failing then Option.none
                else s.tables.find? fun t => t.id == some table_id) with
    | none =>
      rw [check_result_lookup_none table_id booking_date booking_time booking_end_time
        exclude_booking_id s hf] at hc
      simp [initResult] at hc
    | some table =>
      by_cases ha : table.is_active = true
      · rw [check_result_active table_id booking_date booking_time booking_end_time
          exclude_booking_id s table new_start new_end hf ha hs he] at hc
        exact scan_conflict_mem new_start new_end booking_date
          (consideredRows table_id booking_date exclude_booking_id s) c hc
      · rw [Bool.not_eq_true] at ha
        rw [check_result_inactive table_id booking_date booking_time booking_end_time
          exclude_booking_id s table hf ha] at hc
        simp [initResult] at hc
  · intro a b c
    constructor <;> simp [intervalsConflict]

theorem c2_overlap_rule_witness :
    (check_table_availability 1 (PyDT.date 0) (PyDT.time 1260) (PyDT.time 1320)
        Option.none storeTwoBookings).1.available = true
      ↔ (check_table_availability 1 (PyDT.date 0) (PyDT.time 1260) (PyDT.time 1320)
          Option.none storeTwoBookings).1.table_active = true
        ∧ ∀ b ∈ consideredRows 1 (PyDT.date 0) Option.none storeTwoBookings,
            rowOverlapsCandidate 1260 1320 (PyDT.date 0) b = some false :=
  c2_overlap_rule.1 1 (PyDT.date 0) (PyDT.time 1260) (PyDT.time 1320)
    Option.none storeTwoBookings 1260 1320 (by decide) (by decide)

/-! Helper lemmas for the considered-rows characterisation. -/

theorem filter_pre {α : Type} (w q : α → Bool) (l : List α) :
    ((l.filter (fun a => w a && q a)).filter w).filter q = (l.filter w).filter q := by
  simp only [List.filter_filter]
  exact List.filter_congr fun a _ => by cases w a <;> cases q a <;> rfl

theorem check_result_bookings_only (table_id : Nat)
    (booking_date booking_time booking_end_time : PyDT)
    (exclude_booking_id : Option Nat) (s s' : Store)
    (ht : s'.tables = s.tables) (hf : s'.failing = s.failing)
    (hc : consideredRows table_id booking_date exclude_booking_id s'
        = consideredRows table_id booking_date exclude_booking_id s) :
    check_result table_id booking_date booking_time booking_end_time
        exclude_booking_id s'
      = check_result table_id booking_date booking_time booking_end_time
        exclude_booking_id s := by
  unfold check_result
  rw [ht, hf, hc]

/-- The store restricted to exactly the rows the availability check considers
for `(table_id, booking_date, exclude_booking_id)`. -/
def restrictedStore (table_id : Nat) (booking_date : PyDT)
    (exclude_booking_id : Option Nat) (s : Store) : Store :=
  let kept := s.bookings.filter fun b =>
    bookingWhereMatch table_id booking_date b && consideredFilter exclude_booking_id b
  { s with bookings := kept }

theorem consideredRows_prefiltered (table_id : Nat) (booking_date : PyDT)
    (exclude_booking_id : Option Nat) (s : Store) :
    consideredRows table_id booking_date exclude_booking_id
        (restrictedStore table_id booking_date exclude_booking_id s)
      = consideredRows table_id booking_date exclude_booking_id s := by
  unfold consideredRows restrictedStore
  by_cases hf : s.failing = true
  · simp [hf]
  · rw [Bool.not_eq_true] at hf
    simp only [hf, Bool.false_eq_true, if_false]
    exact filter_pre (bookingWhereMatch table_id booking_date)
      (consideredFilter exclude_booking_id) s.bookings

theorem consideredFilter_terminal (exclude_booking_id : Option Nat) (b : Booking)
    (h : b.status = "cancelled" ∨ b.status = "completed") :
    consideredFilter exclude_booking_id b = false := by
  unfold consideredFilter
  rcases h with h | h <;> rw [h] <;> rfl

theorem consideredRows_cons_skipped (table_id : Nat) (booking_date : PyDT)
    (exclude_booking_id : Option Nat) (s : Store) (b : Booking)
    (h : consideredFilter exclude_booking_id b = false) :
    consideredRows table_id booking_date exclude_booking_id
        { s with bookings := b :: s.bookings }
      = consideredRows table_id booking_date exclude_booking_id s := by
  unfold consideredRows
  by_cases hf : s.failing = true
  · simp [hf]
  · rw [Bool.not_eq_true] at hf
    simp only [hf, Bool.false_eq_true, if_false]
    by_cases hw : bookingWhereMatch table_id booking_date b = true
    · simp [List.filter_cons, hw, h]
    · rw [Bool.not_eq_true] at hw
      simp [List.filter_cons, hw]

/-- C3: the availability check considers only reservations on the given table
and date whose status is pending or confirmed and whose id differs from
`exclude_booking_id`: restricting the store to exactly those rows never
changes the result, and adding a cancelled or completed reservation (with any
time window, including an identical one) never changes the result. -/
theorem c3_status_and_exclusion :
    ((∀ (table_id : Nat) (booking_date booking_time booking_end_time : PyDT)
        (exclude_booking_id : Option Nat) (s : Store),
      (check_table_availability table_id booking_date booking_time booking_end_time
          exclude_booking_id
          (restrictedStore table_id booking_date exclude_booking_id s)).1
        = (check_table_availability table_id booking_date booking_time booking_end_time
            exclude_booking_id s).1))
    ∧ (∀ (table_id : Nat) (booking_date booking_time booking_end_time : PyDT)
        (exclude_booking_id : Option Nat) (s : Store) (b : Booking),
      b.status = "cancelled" ∨ b.status = "completed" →
      (check_table_availability table_id booking_date booking_time booking_end_time
          exclude_booking_id { s with bookings := b :: s.bookings }).1
        = (check_table_availability table_id booking_date booking_time booking_end_time
            exclude_booking_id s).1) := by
  constructor
  · intro table_id booking_date booking_time booking_end_time exclude_booking_id s
    exact check_result_bookings_only table_id booking_date booking_time booking_end_time
      exclude_booking_id s _ rfl rfl
      (consideredRows_prefiltered table_id booking_date exclude_booking_id s)
  · intro table_id booking_date booking_time booking_end_time exclude_booking_id s b h
    exact check_result_bookings_only table_id booking_date booking_time booking_end_time
      exclude_booking_id s _ rfl rfl
      (consideredRows_cons_skipped table_id booking_date exclude_booking_id s b
        (consideredFilter_terminal exclude_booking_id b h))

/-- A cancelled reservation occupying 19:00-21:00 on table 1, day 0. -/
def cancelledRow : Booking :=
  { bkNineToEleven with id := some 3, status := "cancelled" }

theorem c3_status_and_exclusion_witness :
    (check_table_availability 1 (PyDT.date 0) (PyDT.time 1140) (PyDT.time 1260)
        Option.none
        { storeNoBookings with bookings := cancelledRow :: storeNoBookings.bookings }).1
      = (check_table_availability 1 (PyDT.date 0) (PyDT.time 1140) (PyDT.time 1260)
          Option.none storeNoBookings).1 :=
  c3_status_and_exclusion.2 1 (PyDT.date 0) (PyDT.time 1140) (PyDT.time 1260)
    Option.none storeNoBookings cancelledRow (Or.inl rfl)

/-- C7 counterexample: the claim that a legacy reservation's effective
interval ends at its start time plus exactly 2 hours fails for starts later
than 22:00. For the row starting 23:00 (minute 1380) with no stored end, the
loop uses `(datetime.combine(date, start) + 2h).time()` recombined onto the
same date, i.e. minute 60 (01:00) of the same day, not minute 1500. -/
theorem c7_counterexample :
    ¬ (∀ (b : Booking) (dd ts : Nat), rowStart b = PyDT.time ts →
        b.booking_end_time = PyDT.none →
        Option.bind (rowEffectiveEnd b) (pyCombine (PyDT.date dd))
          = some (dd * 1440 + ts + 120)) := by
  intro h
  exact absurd (h legacyLateRow 0 1380 rfl rfl) (by decide)

/-- C7 (amended): the effective interval of a considered reservation ends at
its stored (time-valued) end time when one is present, and, when the stored
end time is absent, at the start time plus 2 hours computed as wall-clock
time of day — `(start + 120) % 1440` minutes, re-anchored on the same date
(so the endpoint wraps past midnight for starts after 22:00). -/
theorem c7_effective_end :
    ((∀ (b : Booking) (dd te : Nat), b.booking_end_time = PyDT.time te →
      Option.bind (rowEffectiveEnd b) (pyCombine (PyDT.date dd))
        = some (dd * 1440 + te)))
    ∧ (∀ (b : Booking) (dd ts : Nat), rowStart b = PyDT.time ts →
      b.booking_end_time = PyDT.none →
      Option.bind (rowEffectiveEnd b) (pyCombine (PyDT.date dd))
        = some (dd * 1440 + (ts + 120) % 1440)) := by
  constructor
  · intro b dd te h
    simp [rowEffectiveEnd, h, pyTruthy, timeCoerce, pyCombine, dateVal, timeVal]
  · intro b dd ts h1 h2
    simp [rowEffectiveEnd, h1, h2, pyTruthy, timeVal, pyCombine, dateVal]

theorem c7_effective_end_witness :
    Option.bind (rowEffectiveEnd legacyLateRow) (pyCombine (PyDT.date 0))
      = some (0 * 1440 + (1380 + 120) % 1440) :=
  c7_effective_end.2 legacyLateRow 0 1380 rfl rfl

/-- C5 counterexample: store failures are swallowed, not surfaced. On a
failing store that does hold the active table 1, the availability check
returns exactly the result it returns when the table does not exist at all,
and `create_booking` returns the same `None` it returns for an ordinary
rejection — the caller cannot observe the store failure. -/
theorem c5_counterexample :
    storeFailing.failing = true
    ∧ storeFailing.tables = [tblActive]
    ∧ (check_table_availability 1 (PyDT.date 0) (PyDT.time 1140) (PyDT.time 1260)
        Option.none storeFailing).1
      = (check_table_availability 1 (PyDT.date 0) (PyDT.time 1140) (PyDT.time 1260)
          Option.none storeNoTable).1
    ∧ (create_booking okDraft storeFailing).1 = (create_booking okDraft storeNoTable).1 := by
  decide

/-- C5 (amended): a driver failure during a lifecycle operation or
availability check is caught inside the operation: the availability check
returns its fail-closed initial result (`available = false`,
`table_exists = false`), `create_booking` returns `None` and `update_booking`
returns `False`; the failure itself is only printed, never propagated, and the
returned values coincide with those of ordinary rejections. -/
theorem c5_errors_swallowed (table_id : Nat)
    (booking_date booking_time booking_end_time : PyDT)
    (exclude_booking_id : Option Nat) (s : Store) (b draft : Booking)
    (booking_id now : Nat) (hfail : s.failing = true) :
    (check_table_availability table_id booking_date booking_time booking_end_time
        exclude_booking_id s).1 = initResult
    ∧ (create_booking b s).1 = Option.none
    ∧ (update_booking booking_id draft now s).1 = false := by
  have hlook : ∀ (bd bt bet : PyDT) (ex : Option Nat) (tid : Nat),
      check_result tid bd bt bet ex s = initResult := by
    intro bd bt bet ex tid
    exact check_result_lookup_none tid bd bt bet ex s (by simp [hfail])
  refine ⟨hlook booking_date booking_time booking_end_time exclude_booking_id table_id, ?_, ?_⟩
  · cases hET : pyTruthy b.booking_end_time with
    | false => simp [create_booking, hET]
    | true =>
      have hres := hlook (dateCoerce b.booking_date) (timeCoerce b.booking_time)
        (timeCoerce b.booking_end_time) Option.none b.table_id
      simp [create_booking, check_table_availability, hET, hres, initResult]
  · cases hD : draft.to_dict with
    | none => simp [update_booking, hD]
    | some d0 => simp [update_booking, hD, driver_update_booking, hfail]

theorem c5_errors_swallowed_witness :
    (check_table_availability 1 (PyDT.date 0) (PyDT.time 1140) (PyDT.time 1260)
        Option.none storeFailing).1 = initResult
    ∧ (create_booking okDraft storeFailing).1 = Option.none
    ∧ (update_booking 1 okDraft 0 storeFailing).1 = false :=
  c5_errors_swallowed 1 (PyDT.date 0) (PyDT.time 1140) (PyDT.time 1260)
    Option.none storeFailing okDraft okDraft 1 0 rfl

/-- C1 (code bug exhibit): `update_booking` performs no availability gating.
On the store holding confirmed reservations 1 (19:00-21:00) and 2
(17:30-18:30) on table 1 on day 0, moving reservation 2 to 19:30-20:30
succeeds and rewrites the store, although the availability checker invoked
with `exclude_booking_id = 2` — as the gating described by the spec and by
the GUI's comment would do — reports a conflict with reservation 1. -/
theorem c1_update_unchecked :
    (update_booking 2 updOverlapDraft 999 storeTwoBookings).1 = true
    ∧ (update_booking 2 updOverlapDraft 999 storeTwoBookings).2.bookings
        ≠ storeTwoBookings.bookings
    ∧ (check_table_availability 1 (PyDT.date 0) (PyDT.time 1170) (PyDT.time 1230)
        (some 2) storeTwoBookings).1.available = false
    ∧ (check_table_availability 1 (PyDT.date 0) (PyDT.time 1170) (PyDT.time 1230)
        (some 2) storeTwoBookings).1.conflicting_booking = some bkNineToEleven := by
  decide

/-- C10: serialising a reservation whose date slot is a plain date and whose
start and end slots are plain times and reading it back reproduces every
field except `id`, which becomes `None` because `to_dict` omits the id key. -/
theorem c10_round_trip (b : Booking) (dd tt ee : Nat)
    (hd : b.booking_date = PyDT.date dd) (ht : b.booking_time = PyDT.time tt)
    (he : b.booking_end_time = PyDT.time ee) :
    (b.to_dict).map Booking.from_dict = some { b with id := Option.none } := by
  cases b with
  | mk id user_id table_id booking_date booking_time booking_end_time
      number_of_guests status notes created_at updated_at =>
    simp only at hd ht he
    subst hd
    subst ht
    subst he
    simp [Booking.to_dict, Booking.from_dict, pyTruthy, timeCoerce, dateCoerce]

theorem c10_round_trip_witness :
    (Booking.to_dict bkNineToEleven).map Booking.from_dict
      = some { bkNineToEleven with id := Option.none } :=
  c10_round_trip bkNineToEleven 0 1140 1260 rfl rfl rfl

/-! Helper lemmas for the validation claim. -/

/-- A malformed draft in the sense of the spec's `ValidationError`: a
non-positive guest count, or an end time not strictly after the start time
(both time-valued after the `datetime` coercion the source applies). -/
def malformedDraft (b : Booking) : Prop :=
  b.number_of_guests ≤ 0
  ∨ ∃ t1 t2 : Nat, timeCoerce b.booking_time = PyDT.time t1
      ∧ timeCoerce b.booking_end_time = PyDT.time t2 ∧ t2 ≤ t1

theorem rowOk_false_of_malformed (s : Store) (row : Booking)
    (h : row.number_of_guests ≤ 0
      ∨ ∃ t1 t2 : Nat, row.booking_time = PyDT.time t1
          ∧ row.booking_end_time = PyDT.time t2 ∧ t2 ≤ t1) :
    bookingRowOk s row = false := by
  unfold bookingRowOk
  rcases h with h | ⟨t1, t2, h1, h2, hle⟩
  · have hg : decide (0 < row.number_of_guests) = false := decide_eq_false (by omega)
    simp [hg]
  · have hlt : decide (t1 < t2) = false := decide_eq_false (by omega)
    rw [h1, h2]
    simp [hlt]

theorem to_dict_end_truthy (b : Booking) (hET : pyTruthy b.booking_end_time = true) :
    b.to_dict = some
      { id := Option.none
        user_id := b.user_id
        table_id := b.table_id
        booking_date := dateCoerce b.booking_date
        booking_time := timeCoerce b.booking_time
        booking_end_time := some (timeCoerce b.booking_end_time)
        number_of_guests := b.number_of_guests
        status := b.status
        notes := b.notes
        created_at := b.created_at
        updated_at := b.updated_at } := by
  simp [Booking.to_dict, hET]

theorem to_dict_guests (b : Booking) (d : BookingDict) (h : b.to_dict = some d) :
    d.number_of_guests = b.number_of_guests := by
  unfold Booking.to_dict at h
  split at h
  · simp only [Option.some.injEq] at h
    subst h
    rfl
  · split at h
    · dsimp only at h
      split at h
      · split at h
        · simp only [Option.some.injEq] at h
          subst h
          rfl
        · exact absurd h (by simp)
      · simp only [Option.some.injEq] at h
        subst h
        rfl
    · simp only [Option.some.injEq] at h
      subst h
      rfl

theorem pyTruthy_of_timeCoerce (v : PyDT) (t : Nat) (h : timeCoerce v = PyDT.time t) :
    pyTruthy v = true := by
  cases v <;> simp_all [timeCoerce, pyTruthy]

theorem driver_create_malformed (d : BookingDict) (s : Store)
    (h : ∀ i, bookingRowOk s (bookingOfDict d i) = false) :
    (driver_create_booking d s).1 = Option.none
    ∧ (driver_create_booking d s).2.bookings = s.bookings := by
  unfold driver_create_booking
  by_cases hf : s.failing = true
  · simp [hf, Store.bump]
  · rw [Bool.not_eq_true] at hf
    simp [hf, h s.next_id, Store.bump]

theorem driver_update_malformed (booking_id : Nat) (d : BookingDict) (s : Store)
    (h : ∀ old, bookingRowOk s (applyDict old d) = false) :
    ((driver_update_booking booking_id d s).1 = Option.none
      ∨ (driver_update_booking booking_id d s).1 = some 0)
    ∧ (driver_update_booking booking_id d s).2.bookings = s.bookings := by
  unfold driver_update_booking
  by_cases hf : s.failing = true
  · simp [hf, Store.bump]
  · rw [Bool.not_eq_true] at hf
    cases hfind : s.bookings.find? (fun bb => bb.id == some booking_id) with
    | none => simp [hf, hfind, Store.bump]
    | some old => simp [hf, hfind, h old, Store.bump]

/-- C4 (amended): a draft with a non-positive guest count or an end time not
strictly after its start time is never silently corrected and never persisted
— `create_booking` returns `None` and `update_booking` returns `False`, with
the reservation rows unchanged — but the rejection comes from the store's
schema constraints (or from the availability gate) after store accesses have
been made, not from any pre-validation. -/
theorem c4_rejected_not_prevalidated (b : Booking) (s : Store) (booking_id now : Nat)
    (h : malformedDraft b) :
    (create_booking b s).1 = Option.none
    ∧ (create_booking b s).2.bookings = s.bookings
    ∧ (update_booking booking_id b now s).1 = false
    ∧ (update_booking booking_id b now s).2.bookings = s.bookings := by
  have hcr : (create_booking b s).1 = Option.none
      ∧ (create_booking b s).2.bookings = s.bookings := by
    cases hET : pyTruthy b.booking_end_time with
    | false => exact ⟨by simp [create_booking, hET], by simp [create_booking, hET]⟩
    | true =>
      obtain ⟨d, hd, hdt, hde, hdg⟩ :
          ∃ d, b.to_dict = some d
            ∧ d.booking_time = timeCoerce b.booking_time
            ∧ d.booking_end_time = some (timeCoerce b.booking_end_time)
            ∧ d.number_of_guests = b.number_of_guests :=
        ⟨_, to_dict_end_truthy b hET, rfl, rfl, rfl⟩
      cases hav : (check_result b.table_id (dateCoerce b.booking_date)
          (timeCoerce b.booking_time) (timeCoerce b.booking_end_time)
          Option.none s).available with
      | false =>
        have hcq : create_booking b s = (Option.none, check_accesses b.table_id s) := by
          unfold create_booking check_table_availability
          simp [hET, hav]
        rw [hcq]
        exact ⟨rfl, (check_store_rows b.table_id s).1⟩
      | true =>
        have hcq : create_booking b s
            = driver_create_booking d (check_accesses b.table_id s) := by
          unfold create_booking check_table_availability
          simp [hET, hav, hd]
        have hrow : ∀ i,
            bookingRowOk (check_accesses b.table_id s) (bookingOfDict d i) = false := by
          intro i
          apply rowOk_false_of_malformed
          rcases h with hg | ⟨t1, t2, h1, h2, hle⟩
          · left
            show d.number_of_guests ≤ 0
            rw [hdg]
            exact hg
          · right
            refine ⟨t1, t2, ?_, ?_, hle⟩
            · show d.booking_time = PyDT.time t1
              rw [hdt]
              exact h1
            · show (match d.booking_end_time with
                | some v => v
                | Option.none => PyDT.none) = PyDT.time t2
              rw [hde]
              exact h2
        obtain ⟨e1, e2⟩ :=
          driver_create_malformed d (check_accesses b.table_id s) hrow
        rw [hcq]
        exact ⟨e1, e2.trans (check_store_rows b.table_id s).1⟩
  have hup : (update_booking booking_id b now s).1 = false
      ∧ (update_booking booking_id b now s).2.bookings = s.bookings := by
    cases hD : b.to_dict with
    | none => exact ⟨by simp [update_booking, hD], by simp [update_booking, hD]⟩
    | some d0 =>
      have hg0 : d0.number_of_guests = b.number_of_guests := to_dict_guests b d0 hD
      have hrow : ∀ old,
          bookingRowOk s (applyDict old { d0 with updated_at := some now }) = false := by
        intro old
        apply rowOk_false_of_malformed
        rcases h with hg | ⟨t1, t2, h1, h2, hle⟩
        · left
          show d0.number_of_guests ≤ 0
          rw [hg0]
          exact hg
        · have hET : pyTruthy b.booking_end_time = true := pyTruthy_of_timeCoerce _ _ h2
          have hlit := to_dict_end_truthy b hET
          rw [hD] at hlit
          simp only [Option.some.injEq] at hlit
          subst hlit
          right
          refine ⟨t1, t2, ?_, ?_, hle⟩
          · exact h1
          · exact h2
      have hueq : update_booking booking_id b now s
          = match driver_update_booking booking_id { d0 with updated_at := some now } s with
            | (Option.none, s1) => (false, s1)
            | (some n, s1) => (decide (0 < n), s1) := by
        simp [update_booking, hD]
      obtain ⟨e1, e2⟩ :=
        driver_update_malformed booking_id { d0 with updated_at := some now } s hrow
      cases hdr : driver_update_booking booking_id { d0 with updated_at := some now } s with
      | mk r1 s1 =>
        rw [hdr] at e1 e2
        have e1' : r1 = Option.none ∨ r1 = some 0 := e1
        have e2' : s1.bookings = s.bookings := e2
        rw [hueq, hdr]
        rcases e1' with rfl | rfl
        · exact ⟨rfl, e2'⟩
        · exact ⟨rfl, e2'⟩
  exact ⟨hcr.1, hcr.2, hup.1, hup.2⟩

/-- C4 counterexample: malformed input is not rejected before store access.
Creating the 20:00-20:00 draft (end time equal to start time) against the
store holding the active table 1 drives three store accesses — the table
lookup, the reservations fetch and the attempted insert — before the
operation reports failure, refuting rejection prior to any store access. -/
theorem c4_counterexample :
    (create_booking zeroLenDraft storeNoBookings).1 = Option.none
    ∧ (create_booking zeroLenDraft storeNoBookings).2.accesses = 3
    ∧ storeNoBookings.accesses = 0 := by
  decide

theorem c4_rejected_not_prevalidated_witness :
    (create_booking zeroLenDraft storeNoBookings).1 = Option.none
    ∧ (create_booking zeroLenDraft storeNoBookings).2.bookings
        = storeNoBookings.bookings
    ∧ (update_booking 2 zeroLenDraft 7 storeNoBookings).1 = false
    ∧ (update_booking 2 zeroLenDraft 7 storeNoBookings).2.bookings
        = storeNoBookings.bookings :=
  c4_rejected_not_prevalidated zeroLenDraft storeNoBookings 2 7
    (Or.inr ⟨1200, 1200, rfl, rfl, Nat.le_refl 1200⟩)
